import Mathlib

/-!
Shallow embedding of the tk-multi-reviewsubmission-ovfx repository
(`src/app.py` and `src/hooks/tk-nuke/render_media.py`), with theorems
settling the specification claims about it.

Conventions of the embedding:
* Python `int(a / b)` on integers is modelled as `Int.tdiv` (truncation
  toward zero), which agrees with Python's float-division-then-truncate
  semantics for every magnitude that arises here.
* Python exceptions are modelled with `Except PyErr`; the external entity
  store is modelled by passing the store's response (the result of the
  `shotgun.find` or `find_one` call) as an explicit argument.
* Python dictionaries are insertion-ordered association lists; the mutable
  dictionaries of `app.py` live in an explicit heap (`List Dict`) addressed
  by index, so that in-place mutation and `copy.copy` are observable.
-/

namespace ReviewSubmission

/-- Python exceptions that the embedded code can raise. -/
inductive PyErr where
  | nameError          -- reference to an undefined name (`ctx`)
  | typeError          -- subscripting `None`
  | unboundLocalError  -- returning a local that was never assigned
  deriving DecidableEq, Repr

/-- Python `str.lower()`. -/
def pyLower (s : String) : String := ⟨s.data.map Char.toLower⟩

/-- `path.replace('\\', '/')` (render_media.py line 563): single-character
replacement is a character map. -/
def slashNorm (s : String) : String :=
  ⟨s.data.map (fun c => if c = '\\' then '/' else c)⟩

/-- Python `str.split(sep)` for a one-character separator, on char lists. -/
def splitOnChar (c : Char) : List Char → List (List Char)
  | [] => [[]]
  | x :: xs =>
    match splitOnChar c xs with
    | [] => [[x]]
    | g :: gs => if x = c then [] :: g :: gs else (x :: g) :: gs

/-- Python `sep.join(parts)` on char lists. -/
def joinWith (sep : List Char) : List (List Char) → List Char
  | [] => []
  | [g] => g
  | g :: gs => g ++ sep ++ joinWith sep gs

/-- Fuel-indexed substring replacement; with fuel `l.length` this is
Python `str.replace(pat, rep)` for a non-empty pattern. -/
def replaceSubAux (pat rep : List Char) : Nat → List Char → List Char
  | _, [] => []
  | 0, l => l
  | fuel + 1, x :: xs =>
    if pat.isPrefixOf (x :: xs) ∧ 0 < pat.length then
      rep ++ replaceSubAux pat rep fuel (xs.drop (pat.length - 1))
    else
      x :: replaceSubAux pat rep fuel xs

/-- Python `s.replace(pat, rep)` for a non-empty pattern. -/
def pyReplace (s pat rep : String) : String :=
  ⟨replaceSubAux pat.data rep.data s.data.length s.data⟩

/-- `os.path.basename` as exercised by this code (Windows `ntpath`): the
component after the last path separator, `/` or `\`. -/
def basename (p : String) : String :=
  let afterSlash := (splitOnChar '/' p.data).getLastD []
  ⟨(splitOnChar '\\' afterSlash).getLastD []⟩

/-- The parts of the sgtk context that `render_media.py` reads: the linked
entity (shot) name, the optional task and step (their name fields), and
the project name. -/
structure Context where
  entityName : String
  task : Option String
  step : Option String
  projectName : String
  deriving DecidableEq, Repr

/-- One `PublishedFile` record of an entity-store response, restricted to
the fields the hook reads: `published_file_type.name`, `path.local_path`,
the `version_number` the query orders by, `code` and `description`. -/
structure PublishedFile where
  fileTypeName : String
  local_path : String
  version_number : Int
  code : String
  description : Option String
  deriving DecidableEq, Repr

/-- `RenderMedia.findCubeFile` (render_media.py lines 540-565).  `found`
is the store's response to the `find('PublishedFile', ...)` call, which
requests descending `version_number` order.  When the context has no task
the source evaluates `ctx.step` where no name `ctx` is in scope, raising
`NameError`.  The loop overwrites `path` on every record whose type is
"Cube File", so the last such record of the response wins. -/
def findCubeFile (context : Context) (found : List PublishedFile) :
    Except PyErr (Option String) :=
  match context.task with
  | none => .error .nameError
  | some _ =>
    let path := found.foldl
      (fun acc f => if f.fileTypeName = "Cube File" then some f.local_path else acc)
      (none : Option String)
    .ok (path.map slashNorm)

/-- Modelled from the spec (claim C1 comparison): "the most recent
published asset of kind Cube File ... the one with the highest version
number", path normalized to forward slashes.  This is the spec-side
definition, to be compared with `findCubeFile` above. -/
def specMostRecentCubeFile (found : List PublishedFile) : Option String :=
  match found.filter (fun f => f.fileTypeName = "Cube File") with
  | [] => none
  | c :: cs =>
    some (slashNorm (cs.foldl
      (fun best f => if best.version_number < f.version_number then f else best)
      c).local_path)

/-- `RenderMedia.retrieveComment` (lines 568-603): rebuilds the Nuke-script
filename from the image-sequence basename and keeps the description of the
last "Nuke Script" record whose `code` matches it.  Shares the `ctx`
NameError slip with `findCubeFile` when the context has no task. -/
def retrieveComment (context : Context) (found : List PublishedFile)
    (path : String) : Except PyErr (Option String) :=
  match context.task with
  | none => .error .nameError
  | some _ =>
    let img_seq := basename path
    let base := (splitOnChar '.' img_seq.data).headD []
    let parts := splitOnChar '_' base
    let code : String := ⟨joinWith ['_'] parts.dropLast⟩
    let version : String := ⟨parts.getLastD []⟩
    let nk : String := code ++ "." ++ version ++ ".nk"
    .ok (found.foldl
      (fun acc f =>
        if f.fileTypeName = "Nuke Script" ∧ f.code = nk then f.description else acc)
      (none : Option String))

/-- The Shot-record fields requested by the shot queries. -/
structure Shot where
  code : String
  description : Option String
  sg_client_version : Option Int
  deriving DecidableEq, Repr

/-- `RenderMedia.getShotDescription` (lines 606-619).  `found` is the
`find_one('Shot', ...)` response; with no matching shot, `find_one`
returns `None` and `found['description']` raises `TypeError`. -/
def getShotDescription (found : Option Shot) : Except PyErr (Option String) :=
  match found with
  | none => .error .typeError
  | some s => .ok s.description

/-- `RenderMedia.getClientVersionNumber` (lines 622-635): same shape as
`getShotDescription`, reading `sg_client_version`. -/
def getClientVersionNumber (found : Option Shot) : Except PyErr (Option Int) :=
  match found with
  | none => .error .typeError
  | some s => .ok s.sg_client_version

/-- A Project record (only the queried `name` field). -/
structure Project where
  name : String
  deriving DecidableEq, Repr

/-- `RenderMedia.getProject` (lines 638-646): scans every project and keeps
the last whose name matches case-insensitively; if none matched, the
`return currProject` line raises `UnboundLocalError`. -/
def getProject (projects : List Project) (projectName : String) :
    Except PyErr Project :=
  match projects.foldl
      (fun acc p => if pyLower p.name = pyLower projectName then some p else acc)
      (none : Option Project) with
  | some p => .ok p
  | none => .error .unboundLocalError

/-- The dictionary built by `wrangleData`. -/
structure FrameData where
  frames : Int
  fps : Int
  interval : Int
  num_frames : Int
  thumb : Int
  deriving DecidableEq, Repr

/-- `RenderMedia.wrangleData` (lines 387-403).  `fps` is the value of
`nuke.root()['fps']` in the current program state, passed explicitly here
and carried opaquely into the plan.  Python `int(x / y)` is `Int.tdiv`.
Note that when `interval` computes to 0 only `numframes` is reassigned:
`interval` itself stays 0 in the returned dictionary. -/
def wrangleData (ff lf : Int) (fps : Int) : FrameData :=
  let frames := lf - ff + 1
  let interval := Int.tdiv frames 50
  let numframes := if interval = 0 then frames else Int.tdiv frames interval
  let thumb := Int.tdiv frames 2
  { frames := frames, fps := fps, interval := interval,
    num_frames := numframes, thumb := thumb }

/-- The interval expression substituted into the ffmpeg filter by
`createFilmstrip` (line 508): `interval if interval > 1 else 1`. -/
def filmstripInterval (interval : Int) : Int :=
  if interval > 1 then interval else 1

/-- The ffmpeg argument string built by `createFilmstrip` (lines 493-511)
after `.format` substitution, whitespace condensed and the path join
written with a forward slash. -/
def createFilmstripArgs (fps : Int) (file : String) (interval num_frames : Int)
    (version : String) : String :=
  let output := version ++ "/" ++ pyReplace (basename file) ".mov" "_filmstrip.jpg"
  " -r " ++ toString fps ++ " -i " ++ file ++
    " -frames 1 -vf \"scale=240:-1,select=not(mod(n\\," ++
    toString (filmstripInterval interval) ++ ")),tile=" ++
    toString num_frames ++ "x1\" " ++ output

/-- The filmstrip encoder invocation issued by `TranscodeFile` (line 536)
for master movie `input` and plan `data`. -/
def transcodeFilmstripArgs (input : String) (data : FrameData)
    (version : String) : String :=
  createFilmstripArgs data.fps input data.interval data.num_frames version

/-- Python `"%%0%dd" % padding % version`: the decimal form of `version`
zero-padded on the left to width `padding` (never truncated). -/
def pyFormatZeroPad (padding : Nat) (v : Nat) : String :=
  let s := toString v
  String.mk (List.replicate (padding - s.length) '0') ++ s

/-- The burn-in version label (render_media.py lines 158-169): the task
name when a task exists, else the step name, else the bare `v` string. -/
def versionLabel (task step : Option String) (padding : Nat) (version : Nat) :
    String :=
  let version_str := pyFormatZeroPad padding version
  match task with
  | some t => t ++ ", v" ++ version_str
  | none =>
    match step with
    | some s => s ++ ", v" ++ version_str
    | none => "v" ++ version_str

/-- Which of the two fallible stages of `RenderMedia.render` raise: the
node-graph construction body inside the `try` (lines 113-247), and the
host render call `nuke.executeMultiple` (lines 257-259). -/
structure RenderFailures where
  bodyRaises : Bool
  executeRaises : Bool
  deriving DecidableEq, Repr

inductive RenderErr where
  | bodyError
  | renderError
  deriving DecidableEq, Repr

/-- Observable trace of one `RenderMedia.render` call (lines 102-266). -/
structure RenderTrace where
  groupBegun : Bool
  groupEnded : Bool                      -- from `finally: group.end()`
  groupDeleted : Bool                    -- `nuke.delete(group)`, line 262
  folderEnsured : Bool
  executeRanges : List (Int × Int × Int) -- args of `nuke.executeMultiple`
  transcodeRan : Bool
  result : Except RenderErr String
  deriving Repr

/-- Control-flow model of `RenderMedia.render`: the `try` body builds the
graph (and sets `output_node`); `group.end()` runs in the `finally` on both
paths; an exception then propagates past the `if output_node:` render block
and past `nuke.delete(group)`, which is *after* the `try`/`finally`, not
inside it.  On the success path the host render call receives the frame
range `(first_frame - 1, last_frame, 1)` (line 258). -/
def renderFlow (f : RenderFailures) (first_frame last_frame : Int)
    (output_path : String) : RenderTrace :=
  if f.bodyRaises then
    { groupBegun := true, groupEnded := true, groupDeleted := false,
      folderEnsured := false, executeRanges := [], transcodeRan := false,
      result := .error .bodyError }
  else if f.executeRaises then
    { groupBegun := true, groupEnded := true, groupDeleted := false,
      folderEnsured := true,
      executeRanges := [(first_frame - 1, last_frame, 1)],
      transcodeRan := false,
      result := .error .renderError }
  else
    { groupBegun := true, groupEnded := true, groupDeleted := true,
      folderEnsured := true,
      executeRanges := [(first_frame - 1, last_frame, 1)],
      transcodeRan := true,
      result := .ok output_path }

/-- A Python dict value as used for template fields. -/
inductive Value where
  | str (s : String)
  | int (n : Int)
  deriving DecidableEq, Repr

/-- A Python dict: an insertion-ordered association list. -/
abbrev Dict := List (String × Value)

/-- Python `d[k] = v`: replace in place if the key exists, else append. -/
def dictSet : Dict → String → Value → Dict
  | [], k, v => [(k, v)]
  | (k', v') :: rest, k, v =>
    if k' = k then (k, v) :: rest else (k', v') :: dictSet rest k v

/-- The mutable-dictionary heap; the caller's `fields` dict is `heap[r]`. -/
abbrev Heap := List Dict

/-- Mutate key `k` of the dict at reference `r` (in-place dict update). -/
def heapSet (h : Heap) (r : Nat) (k : String) (v : Value) : Heap :=
  h.set r (dictSet (h.getD r []) k v)

/-- A path template: the names of its `SequenceKey` keys, and
`apply_fields` as an abstract function of the dict contents. -/
structure Template where
  seqKeys : List String
  applyFields : Dict → String

/-- The app settings `render_and_submit` reads. -/
structure AppSettings where
  upload_to_shotgun : Bool
  store_on_disk : Bool
  movie_width : Int
  movie_height : Int

/-- Everything observable about one `render_and_submit` call. -/
structure RunResult where
  result : Option Int              -- the returned Version entity id, or None
  heap : Heap                      -- final state of all dictionaries
  warnings : List String           -- log_warning messages
  progress : List (Int × String)   -- progress_cb invocations, in order
  renderCalled : Bool
  submitCalled : Bool
  inputPath : Option String
  outputPath : Option String
  deriving Repr

/-- `MultiReviewSubmissionApp.render_and_submit` (app.py lines 34-107).
If neither `upload_to_shotgun` nor `store_on_disk` is set, it logs a
warning and returns `None` before the first `progress_cb` call (lines
52-56).  Otherwise it copies the caller's fields dict (`copy.copy`,
line 61), rewrites the sequence keys and adds width/height on the copy
only, renders and submits.  `sg_version` abstracts the submitter's
return value. -/
def render_and_submit (s : AppSettings) (template output_template : Template)
    (heap : Heap) (fieldsRef : Nat) (sg_version : Int) : RunResult :=
  if s.upload_to_shotgun = false ∧ s.store_on_disk = false then
    { result := none, heap := heap,
      warnings := ["App is not configured to store images on disk nor upload to shotgun!"],
      progress := [], renderCalled := false, submitCalled := false,
      inputPath := none, outputPath := none }
  else
    let localRef := heap.length
    let heap1 := heap ++ [heap.getD fieldsRef []]
    let heap2 := template.seqKeys.foldl
      (fun acc k => heapSet acc localRef k (Value.str "FORMAT: %d")) heap1
    let path := template.applyFields (heap2.getD localRef [])
    let heap3 := heapSet heap2 localRef "width" (Value.int s.movie_width)
    let heap4 := heapSet heap3 localRef "height" (Value.int s.movie_height)
    let output_path := output_template.applyFields (heap4.getD localRef [])
    { result := some sg_version, heap := heap4,
      warnings := [],
      progress := [(10, "Preparing"), (20, "Rendering movie"),
                   (50, "Creating Shotgun Version and uploading movie")],
      renderCalled := true, submitCalled := true,
      inputPath := some path, outputPath := some output_path }

/-! ### Helper lemmas -/

/-- A last-match-wins fold that never fires leaves the accumulator at
`none`. -/
theorem foldl_override_none {α β : Type} (P : α → Prop) [DecidablePred P]
    (g : α → Option β) (l : List α) (h : ∀ x ∈ l, ¬ P x) :
    l.foldl (fun acc x => if P x then g x else acc) (none : Option β) = none := by
  induction l with
  | nil => rfl
  | cons x xs ih =>
    have hx : ¬ P x := h x (by simp)
    simp only [List.foldl_cons, if_neg hx]
    exact ih (fun f hf => h f (by simp [hf]))

/-- Updating a dict at one heap reference leaves every other reference
untouched. -/
theorem heapSet_getElem_ne (h : Heap) (a r : Nat) (k : String) (v : Value)
    (hne : a ≠ r) : (heapSet h a k v)[r]? = h[r]? :=
  List.getElem?_set_ne hne

/-- Folding dict updates over one heap reference leaves every other
reference untouched. -/
theorem foldl_heapSet_getElem_ne (a r : Nat) (hne : a ≠ r) (val : Value) :
    ∀ (keys : List String) (h : Heap),
      (keys.foldl (fun acc k => heapSet acc a k val) h)[r]? = h[r]? := by
  intro keys
  induction keys with
  | nil => intro h; rfl
  | cons k ks ih =>
    intro h
    rw [List.foldl_cons, ih, heapSet_getElem_ne _ _ _ _ _ hne]

/-! ### Claim theorems -/

/-- C1: the claim says `findCubeFile` returns the path of the Cube File
publish with the highest version number.  The query does order the store
response by descending version number, but the loop overwrites `path` on
every Cube File record, so the *last* record of the descending response —
the lowest version — wins.  Evaluated at a concrete response holding cube
files v5 and v3 (descending order), the code picks the v3 path while the
spec-side definition picks the v5 path. -/
theorem c1_findCubeFile_picks_lowest_version :
    List.Sorted (fun a b => b ≤ a)
      (List.map PublishedFile.version_number
        [⟨"Cube File", "X:\\luts\\a_v005.cube", 5, "a_v005.cube", none⟩,
         ⟨"Cube File", "X:\\luts\\b_v003.cube", 3, "b_v003.cube", none⟩]) ∧
    findCubeFile ⟨"sh010", some "comp", none, "Proj"⟩
      [⟨"Cube File", "X:\\luts\\a_v005.cube", 5, "a_v005.cube", none⟩,
       ⟨"Cube File", "X:\\luts\\b_v003.cube", 3, "b_v003.cube", none⟩]
      = .ok (some "X:/luts/b_v003.cube") ∧
    specMostRecentCubeFile
      [⟨"Cube File", "X:\\luts\\a_v005.cube", 5, "a_v005.cube", none⟩,
       ⟨"Cube File", "X:\\luts\\b_v003.cube", 3, "b_v003.cube", none⟩]
      = some "X:/luts/a_v005.cube" := by
  refine ⟨?_, ?_, ?_⟩
  · decide
  · rfl
  · rfl

/-- C2 counterexample: at frame range [1, 10] (frame count 10 < 50) the
plan's interval is 0 — not `frame_count = 10` as the claim states, since
`wrangleData` reassigns only `numframes`, never `interval`. -/
theorem c2_counterexample :
    (wrangleData 1 10 24).frames = 10 ∧
    (wrangleData 1 10 24).interval = 0 ∧
    ¬ (wrangleData 1 10 24).interval = (wrangleData 1 10 24).frames := by
  decide

/-- C2 amended: for every frame range with `f1 >= f0`, `frame_count =
f1 - f0 + 1`; if `frame_count < 50` then the plan's interval is 0 (not
`frame_count`) while its tile count equals `frame_count`; otherwise
`interval = floor(frame_count / 50) >= 1` and `tile_count =
floor(frame_count / interval)`. -/
theorem c2_wrangleData_plan (ff lf fps : Int) (h : ff ≤ lf) :
    (wrangleData ff lf fps).frames = lf - ff + 1 ∧
    (lf - ff + 1 < 50 →
      (wrangleData ff lf fps).interval = 0 ∧
      (wrangleData ff lf fps).num_frames = lf - ff + 1) ∧
    (50 ≤ lf - ff + 1 →
      (wrangleData ff lf fps).interval = Int.tdiv (lf - ff + 1) 50 ∧
      1 ≤ (wrangleData ff lf fps).interval ∧
      (wrangleData ff lf fps).num_frames
        = Int.tdiv (lf - ff + 1) ((wrangleData ff lf fps).interval)) := by
  refine ⟨rfl, ?_, ?_⟩
  · intro hlt
    have hz : Int.tdiv (lf - ff + 1) 50 = 0 :=
      Int.tdiv_eq_zero_of_lt (by omega) hlt
    constructor
    · simpa [wrangleData] using hz
    · simp [wrangleData, hz]
  · intro hge
    have h1 : 1 ≤ Int.tdiv (lf - ff + 1) 50 := by
      rw [Int.tdiv_eq_ediv (by omega) (by omega)]
      omega
    refine ⟨rfl, ?_, ?_⟩
    · simpa [wrangleData] using h1
    · simp only [wrangleData]
      rw [if_neg (by omega)]

/-- C2 witness: the amended theorem applied at the range [1, 100]. -/
theorem c2_witness :
    (1 : Int) ≤ 100 ∧
    ((wrangleData 1 100 24).frames = 100 - 1 + 1 ∧
      ((100 : Int) - 1 + 1 < 50 →
        (wrangleData 1 100 24).interval = 0 ∧
        (wrangleData 1 100 24).num_frames = 100 - 1 + 1) ∧
      (50 ≤ (100 : Int) - 1 + 1 →
        (wrangleData 1 100 24).interval = Int.tdiv (100 - 1 + 1) 50 ∧
        1 ≤ (wrangleData 1 100 24).interval ∧
        (wrangleData 1 100 24).num_frames
          = Int.tdiv (100 - 1 + 1) ((wrangleData 1 100 24).interval))) :=
  ⟨by decide, c2_wrangleData_plan 1 100 24 (by decide)⟩

/-- C3: for every frame range with `f1 >= f0` (and any host fps), the
interval value substituted into the filmstrip filter expression — the
`interval if interval > 1 else 1` of `createFilmstrip` applied to the
plan's interval — is at least 1, and when the plan's interval is 0 it is
exactly 1, so a modulo-by-zero selector is never handed to the encoder. -/
theorem c3_filmstrip_interval_at_least_one (ff lf fps : Int) (_h : ff ≤ lf) :
    1 ≤ filmstripInterval ((wrangleData ff lf fps).interval) ∧
    ((wrangleData ff lf fps).interval = 0 →
      filmstripInterval ((wrangleData ff lf fps).interval) = 1) := by
  constructor
  · unfold filmstripInterval
    split
    · omega
    · omega
  · intro hz
    rw [hz]
    decide

/-- C3 witness: the theorem applied at the degenerate range [1, 10], where
the plan's interval is 0 and the substituted value is 1. -/
theorem c3_witness :
    (1 : Int) ≤ 10 ∧
    (1 ≤ filmstripInterval ((wrangleData 1 10 24).interval) ∧
      ((wrangleData 1 10 24).interval = 0 →
        filmstripInterval ((wrangleData 1 10 24).interval) = 1)) :=
  ⟨by decide, c3_filmstrip_interval_at_least_one 1 10 24 (by decide)⟩

/-- C4 counterexample: the project lookup does not degrade to a null value
when nothing matches — with no matching project, `getProject` falls off
the loop with `currProject` unassigned and `return currProject` raises
`UnboundLocalError`. -/
theorem c4_counterexample :
    getProject ([] : List Project) "Alpha" = .error .unboundLocalError := rfl

/-- C4 amended: the cube-file and Nuke-script-comment lookups do degrade
gracefully — with a task context and no matching record they yield `none`
without an error — and a found shot record yields its (possibly null)
description and client version; but the project, shot-description and
client-version lookups raise an error whenever no record matches, instead
of yielding a null field. -/
theorem c4_lookup_failure_policy (e t pn path : String) (st : Option String)
    (found : List PublishedFile) (shot : Shot) (projects : List Project)
    (pname : String)
    (hcube : ∀ f ∈ found, ¬ f.fileTypeName = "Cube File")
    (hnk : ∀ f ∈ found, ¬ f.fileTypeName = "Nuke Script")
    (hproj : ∀ p ∈ projects, ¬ pyLower p.name = pyLower pname) :
    findCubeFile ⟨e, some t, st, pn⟩ found = .ok none ∧
    retrieveComment ⟨e, some t, st, pn⟩ found path = .ok none ∧
    getShotDescription (some shot) = .ok shot.description ∧
    getClientVersionNumber (some shot) = .ok shot.sg_client_version ∧
    getShotDescription none = .error .typeError ∧
    getClientVersionNumber none = .error .typeError ∧
    getProject projects pname = .error .unboundLocalError := by
  refine ⟨?_, ?_, rfl, rfl, rfl, rfl, ?_⟩
  · show Except.ok ((found.foldl
      (fun acc f => if f.fileTypeName = "Cube File" then some f.local_path else acc)
      (none : Option String)).map slashNorm) = .ok none
    rw [foldl_override_none (fun f => f.fileTypeName = "Cube File")
      (fun f => some f.local_path) found hcube]
    rfl
  · show Except.ok (found.foldl
      (fun acc f => if f.fileTypeName = "Nuke Script" ∧ f.code = _ then
        f.description else acc) (none : Option String)) = .ok none
    rw [foldl_override_none _ (fun f => f.description) found
      (fun f hf hP => hnk f hf hP.1)]
  · show (match projects.foldl
        (fun acc p => if pyLower p.name = pyLower pname then some p else acc)
        (none : Option Project) with
      | some p => Except.ok p
      | none => Except.error PyErr.unboundLocalError) = .error .unboundLocalError
    rw [foldl_override_none (fun p => pyLower p.name = pyLower pname)
      (fun p => some p) projects hproj]

/-- C4 witness: the amended theorem applied at an empty store response,
an empty project list and a shot record with null fields. -/
theorem c4_witness :
    findCubeFile ⟨"sh010", some "comp", none, "Proj"⟩ [] = .ok none ∧
    retrieveComment ⟨"sh010", some "comp", none, "Proj"⟩ []
      "sh010_comp_v001.1001.exr" = .ok none ∧
    getShotDescription (some ⟨"sh010", none, none⟩)
      = .ok (Shot.mk "sh010" none none).description ∧
    getClientVersionNumber (some ⟨"sh010", none, none⟩)
      = .ok (Shot.mk "sh010" none none).sg_client_version ∧
    getShotDescription none = .error .typeError ∧
    getClientVersionNumber none = .error .typeError ∧
    getProject [] "Alpha" = .error .unboundLocalError :=
  c4_lookup_failure_policy "sh010" "comp" "Proj" "sh010_comp_v001.1001.exr"
    none [] ⟨"sh010", none, none⟩ [] "Alpha"
    (by decide) (by decide) (by decide)

/-- C5: when both `upload_to_shotgun` and `store_on_disk` are false,
`render_and_submit` logs the configuration warning and returns `None`
without invoking the progress callback, without rendering or submitting,
and without touching any dictionary; the early-return path performs no
fallible operation, so no exception is raised. -/
theorem c5_not_configured (s : AppSettings) (tmpl otmpl : Template)
    (heap : Heap) (r : Nat) (v : Int)
    (hu : s.upload_to_shotgun = false) (hs : s.store_on_disk = false) :
    (render_and_submit s tmpl otmpl heap r v).result = none ∧
    (render_and_submit s tmpl otmpl heap r v).warnings
      = ["App is not configured to store images on disk nor upload to shotgun!"] ∧
    (render_and_submit s tmpl otmpl heap r v).progress = [] ∧
    (render_and_submit s tmpl otmpl heap r v).renderCalled = false ∧
    (render_and_submit s tmpl otmpl heap r v).submitCalled = false ∧
    (render_and_submit s tmpl otmpl heap r v).heap = heap := by
  simp [render_and_submit, hu, hs]

/-- C5 witness: the theorem applied at a fully concrete configuration with
both settings disabled. -/
theorem c5_witness :
    (render_and_submit ⟨false, false, 1920, 1080⟩
        ⟨["SEQ"], fun _ => "in.%04d.exr"⟩ ⟨[], fun _ => "out.mov"⟩
        [[("name", Value.str "review")]] 0 7).result = none ∧
    (render_and_submit ⟨false, false, 1920, 1080⟩
        ⟨["SEQ"], fun _ => "in.%04d.exr"⟩ ⟨[], fun _ => "out.mov"⟩
        [[("name", Value.str "review")]] 0 7).warnings
      = ["App is not configured to store images on disk nor upload to shotgun!"] ∧
    (render_and_submit ⟨false, false, 1920, 1080⟩
        ⟨["SEQ"], fun _ => "in.%04d.exr"⟩ ⟨[], fun _ => "out.mov"⟩
        [[("name", Value.str "review")]] 0 7).progress = [] ∧
    (render_and_submit ⟨false, false, 1920, 1080⟩
        ⟨["SEQ"], fun _ => "in.%04d.exr"⟩ ⟨[], fun _ => "out.mov"⟩
        [[("name", Value.str "review")]] 0 7).renderCalled = false ∧
    (render_and_submit ⟨false, false, 1920, 1080⟩
        ⟨["SEQ"], fun _ => "in.%04d.exr"⟩ ⟨[], fun _ => "out.mov"⟩
        [[("name", Value.str "review")]] 0 7).submitCalled = false ∧
    (render_and_submit ⟨false, false, 1920, 1080⟩
        ⟨["SEQ"], fun _ => "in.%04d.exr"⟩ ⟨[], fun _ => "out.mov"⟩
        [[("name", Value.str "review")]] 0 7).heap
      = [[("name", Value.str "review")]] :=
  c5_not_configured ⟨false, false, 1920, 1080⟩
    ⟨["SEQ"], fun _ => "in.%04d.exr"⟩ ⟨[], fun _ => "out.mov"⟩
    [[("name", Value.str "review")]] 0 7 rfl rfl

/-- C6: the burn-in version label is `"<task-or-step-name>, v<zero-padded
version>"` when a task or step context exists and `"v<zero-padded
version>"` otherwise; in particular task "comp", version 7, padding 3
gives `"comp, v007"`, and no task/step, version 3, padding 4 gives
`"v0003"`. -/
theorem c6_version_label (t s : String) (st : Option String) (p v : Nat) :
    versionLabel (some t) st p v = t ++ ", v" ++ pyFormatZeroPad p v ∧
    versionLabel none (some s) p v = s ++ ", v" ++ pyFormatZeroPad p v ∧
    versionLabel none none p v = "v" ++ pyFormatZeroPad p v ∧
    versionLabel (some "comp") none 3 7 = "comp, v007" ∧
    versionLabel none none 4 3 = "v0003" := by
  refine ⟨rfl, rfl, rfl, ?_, ?_⟩
  · decide
  · decide

/-- C7 counterexample: when the host render call raises, the ephemeral
group is *not* deleted — `nuke.delete(group)` sits after the
`try`/`finally`, so the exception propagates past it. -/
theorem c7_counterexample :
    (renderFlow ⟨false, true⟩ 1001 1100 "out.mov").groupDeleted = false ∧
    (renderFlow ⟨false, true⟩ 1001 1100 "out.mov").result
      = .error .renderError :=
  ⟨rfl, rfl⟩

/-- C7 amended: `group.end()` runs on every exit path (it is in the
`finally`), but the group node is deleted only when neither the graph
construction body nor the host render call raises; on either exception
the group survives. -/
theorem c7_group_cleanup (f : RenderFailures) (ff lf : Int) (p : String) :
    (renderFlow f ff lf p).groupEnded = true ∧
    ((renderFlow f ff lf p).groupDeleted = true ↔
      f.bodyRaises = false ∧ f.executeRaises = false) := by
  cases f with
  | mk b e => cases b <;> cases e <;> simp [renderFlow]

/-- C8 counterexample: two `wrangleData` calls with the same frame range
but made in program states whose root fps differs (24 vs 30) yield
different plans, because the fps field is read from ambient host state,
not derived from the two inputs. -/
theorem c8_counterexample : ¬ wrangleData 1 10 24 = wrangleData 1 10 30 := by
  decide

/-- C8 amended: `wrangleData` is deterministic given its two frame-range
inputs *and* the host's current fps setting; the frames, interval,
num_frames and thumb components depend only on the frame range, while the
fps component merely copies the ambient fps value. -/
theorem c8_determinism (ff lf fps fps' : Int) :
    (wrangleData ff lf fps).frames = (wrangleData ff lf fps').frames ∧
    (wrangleData ff lf fps).interval = (wrangleData ff lf fps').interval ∧
    (wrangleData ff lf fps).num_frames = (wrangleData ff lf fps').num_frames ∧
    (wrangleData ff lf fps).thumb = (wrangleData ff lf fps').thumb ∧
    (wrangleData ff lf fps).fps = fps :=
  ⟨rfl, rfl, rfl, rfl, rfl⟩

/-- C9: `render_and_submit` never mutates the caller's fields dictionary:
the dict at the caller's reference is unchanged by the call, because the
sequence-key rewrites and the width/height insertions all target the fresh
copy allocated by `copy.copy(fields)`. -/
theorem c9_fields_not_mutated (s : AppSettings) (tmpl otmpl : Template)
    (heap : Heap) (r : Nat) (v : Int) (h : r < heap.length) :
    (render_and_submit s tmpl otmpl heap r v).heap[r]? = heap[r]? := by
  unfold render_and_submit
  split
  · rfl
  · have hne : heap.length ≠ r := by omega
    simp only []
    rw [heapSet_getElem_ne _ _ _ _ _ hne, heapSet_getElem_ne _ _ _ _ _ hne,
      foldl_heapSet_getElem_ne _ _ hne, List.getElem?_append_left h]

/-- C9 witness: the theorem applied at a concrete one-dict heap. -/
theorem c9_witness :
    (render_and_submit ⟨true, true, 1920, 1080⟩
        ⟨["SEQ"], fun _ => "in.%04d.exr"⟩ ⟨[], fun _ => "out.mov"⟩
        [[("name", Value.str "review")]] 0 7).heap[0]?
      = [[("name", Value.str "review")]][0]? :=
  c9_fields_not_mutated ⟨true, true, 1920, 1080⟩
    ⟨["SEQ"], fun _ => "in.%04d.exr"⟩ ⟨[], fun _ => "out.mov"⟩
    [[("name", Value.str "review")]] 0 7 (by decide)

/-- C10: whenever `RenderMedia.render` reaches a result (the render call
did not raise), the host render call was issued with the frame range
`(first_frame - 1, last_frame, 1)` — one leading slate frame before the
first source frame, step 1. -/
theorem c10_master_render_range (f : RenderFailures) (ff lf : Int)
    (p q : String) (h : (renderFlow f ff lf p).result = .ok q) :
    (renderFlow f ff lf p).executeRanges = [(ff - 1, lf, 1)] := by
  cases f with
  | mk b e =>
    cases b
    · cases e
      · rfl
      · simp [renderFlow] at h
    · simp [renderFlow] at h

/-- C10 witness: the theorem applied to the successful render at range
[1001, 1100]. -/
theorem c10_witness :
    (renderFlow ⟨false, false⟩ 1001 1100 "out.mov").executeRanges
      = [(1001 - 1, 1100, 1)] :=
  c10_master_render_range ⟨false, false⟩ 1001 1100 "out.mov" "out.mov" rfl

end ReviewSubmission

